import Mathlib

/-!
# Verification of connector graph-construction and scheduling behaviour

Shallow embedding of the core ingestion pipeline of the ProofPoint ET
Reputation connector (`external-import/proofpoint-et-reputation/src/connector/connector.py`),
together with the id-derivation fragments of the SpyCloud connector
(`external-import/spycloud/src/connector/models/opencti.py`) and the
Intel471 indicators mapper (`external-import/intel471/src/intel471/mappers/indicators.py`).

Pure functions of the Python source are translated into Lean functions;
the per-collection control flow of `_process_reputation_tasks` and the
cursor handling of `process_message` are embedded as functions from the
cycle's inputs (fetch results, dispatch outcome) to an event trace and a
resulting persisted state.  Components of this repository that are not
part of the provided sources (the pydantic reputation models, the
`ConverterToStix` service and the pycti id generators) are modelled from
the specification, as marked in their doc comments.
-/

namespace Connectors

/-! ## ProofPoint ET Reputation: data model -/

/-- Connector configuration fields used by `_generate_stix_from_reputation_data`:
`extra_min_score` (the configured minimum score) and `extra_create_indicator`. -/
structure PPConfig where
  extra_min_score : Nat
  extra_create_indicator : Bool
deriving DecidableEq

/-- Raw reputation data as returned by the client: an association of entity
values (IP addresses or domain names) to an association of category names
to raw scores.  Scores arrive as raw integers. -/
abbrev RepData := List (String × List (String × Int))

/-- A validated reputation model (`IPReputationModel` / `DomainReputationModel`):
an entity value and its mapping from category to score. -/
structure ReputationModel where
  value : String
  score_by_category : List (String × Nat)
deriving DecidableEq

/-- Modelled from the spec: the pydantic models `IPReputationModel` and
`DomainReputationModel` (`connector/models`) are not among the provided
sources.  Per the spec, a record fails validation when a required field is
missing or a value is out of range; a validated model therefore has a
non-empty entity value, a non-empty category map and non-negative scores. -/
def validate_reputation (value : String) (scores : List (String × Int)) :
    Option ReputationModel :=
  if value = "" then none
  else if scores = [] then none
  else if scores.all (fun p => 0 ≤ p.2) then
    some ⟨value, scores.map (fun p => (p.1, p.2.toNat))⟩
  else none

/-- `_generate_reputation_model`: iterates the raw data and yields a model per
entity, skipping (logging) every entity whose data fails validation. -/
def generate_reputation_model (data_list : RepData) : List ReputationModel :=
  data_list.filterMap (fun p => validate_reputation p.1 p.2)

/-- Python's `max` over a non-empty collection (0 on the empty list, which
validation rules out). -/
def listMax : List Nat → Nat
  | [] => 0
  | x :: xs => max x (listMax xs)

/-- The `highest_score_converted` computed by `_generate_stix_from_reputation_data`:
the maximum score across categories, capped at 100. -/
def capped_score (model : ReputationModel) : Nat :=
  let highest_score := listMax (model.score_by_category.map Prod.snd)
  if highest_score > 100 then 100 else highest_score

/-- The score the spec prescribes: the maximum across categories clamped
into `[0, 100]` (stated for comparison with the code's `capped_score`). -/
def spec_score (scores : List Nat) : Nat :=
  min (listMax scores) 100

/-! ## STIX objects produced by the converter -/

/-- The STIX objects the connector emits: the author identity, the TLP
marking definition, observables, indicators and relationships. -/
inductive StixObject where
  | author (id : String) (name : String)
  | marking (id : String)
  | observable (id : String) (value : String) (score : Nat) (labels : List String)
  | indicator (id : String) (name : String) (score : Nat) (labels : List String)
  | relationship (id : String) (source_ref : String) (target_ref : String)
      (relationship_type : String)
deriving DecidableEq

/-- The STIX id of an object. -/
def StixObject.id : StixObject → String
  | .author i _ => i
  | .marking i => i
  | .observable i _ _ _ => i
  | .indicator i _ _ _ => i
  | .relationship i _ _ _ => i

/-- The `x_opencti_score` attached to an object, when it carries one. -/
def StixObject.score? : StixObject → Option Nat
  | .observable _ _ s _ => some s
  | .indicator _ _ s _ => some s
  | _ => none

/-- Whether an object is a relationship. -/
def StixObject.isRelationship : StixObject → Bool
  | .relationship _ _ _ _ => true
  | _ => false

/-- Modelled from the spec: the pycti id helpers used by `ConverterToStix`
are not among the provided sources; per the spec a derived id is a
deterministic encoding of the object's canonical semantic fields. -/
def generate_id (objType : String) (props : List (String × String)) : String :=
  objType ++ "--" ++ String.intercalate ";" (props.map (fun p => p.1 ++ "=" ++ p.2))

/-- `pycti.Identity.generate_id`: derived from the name and identity class. -/
def identity_generate_id (name identityClass : String) : String :=
  generate_id "identity" [("name", name), ("identity_class", identityClass)]

/-- Modelled from the spec: `ConverterToStix.make_author` (`connector/services`)
is not among the provided sources; it builds the connector's author identity,
whose id derives from its name and identity class. -/
def make_author : StixObject :=
  .author (identity_generate_id "Proofpoint ET Reputation" "organization")
    "Proofpoint ET Reputation"

/-- Modelled from the spec: `ConverterToStix.make_marking_definition_tlp_amber_strict`
is not among the provided sources; the TLP AMBER+STRICT marking definition has
a fixed id. -/
def make_marking_definition_tlp_amber_strict : StixObject :=
  .marking "marking-definition--tlp-amber-strict"

/-- The STIX pattern an indicator uses for an entity of the given collection. -/
def make_pattern (value collection : String) : String :=
  "[" ++ collection ++ ":value = " ++ value ++ "]"

/-- Modelled from the spec: `ConverterToStix.make_observable` is not among the
provided sources; it builds an observable for a supported collection
("IPv4-Addr" or "Domain-Name") and returns `None` otherwise, with an id
derived from the observable's value. -/
def make_observable (value : String) (score : Nat) (labels : List String)
    (collection : String) : Option StixObject :=
  if collection = "IPv4-Addr" ∨ collection = "Domain-Name" then
    some (.observable (generate_id "observable" [("collection", collection), ("value", value)])
      value score labels)
  else none

/-- Modelled from the spec: `ConverterToStix.make_indicator` is not among the
provided sources; the indicator's id derives from its STIX pattern. -/
def make_indicator (value : String) (score : Nat) (labels : List String)
    (collection : String) : StixObject :=
  .indicator (generate_id "indicator" [("pattern", make_pattern value collection)])
    value score labels

/-- Modelled from the spec: `ConverterToStix.make_relationship` is not among the
provided sources; the relationship's id derives from its type and its two
endpoint ids, which it references as `source_ref` and `target_ref`. -/
def make_relationship (source : StixObject) (relationshipType : String)
    (target : StixObject) : StixObject :=
  .relationship
    (generate_id "relationship"
      [("relationship_type", relationshipType), ("source_ref", source.id),
        ("target_ref", target.id)])
    source.id target.id relationshipType

/-- The loop body of `_generate_stix_from_reputation_data` for one validated
model: compute the capped maximum score, drop the entity when it is below
the configured minimum score, otherwise emit the observable and — when
`extra_create_indicator` is set — the indicator and the `based-on`
relationship between them. -/
def entity_objects (cfg : PPConfig) (collection : String) (model : ReputationModel) :
    List StixObject :=
  let highest_score_converted := capped_score model
  let list_categories := model.score_by_category.map Prod.fst
  if cfg.extra_min_score > highest_score_converted then []
  else
    match make_observable model.value highest_score_converted list_categories collection with
    | none => []
    | some observable =>
      if cfg.extra_create_indicator then
        let indicator := make_indicator model.value highest_score_converted
          list_categories collection
        let relationship := make_relationship indicator "based-on" observable
        [observable, indicator, relationship]
      else [observable]

/-- `_generate_stix_from_reputation_data`: the author and the marking
definition are appended first, then each validated model contributes its
objects in order. -/
def generate_stix_from_reputation_data (cfg : PPConfig) (data_list : RepData)
    (collection : String) : List StixObject :=
  make_author :: make_marking_definition_tlp_amber_strict ::
    (generate_reputation_model data_list).flatMap (entity_objects cfg collection)

/-! ## Bundle preparation: `_process_send_stix_to_opencti` -/

/-- The filtering comprehension of `_process_send_stix_to_opencti`: walk the
prepared objects keeping only those whose id has not been seen yet (the
`unique_ids` set); the first object with each id is kept, every later
object with the same id is dropped. -/
def unique_by_id {α : Type} (key : α → String) : List α → List String → List α
  | [], _ => []
  | x :: xs, seen =>
    if seen.contains (key x) then unique_by_id key xs seen
    else x :: unique_by_id key xs (key x :: seen)

/-- A prepared object as `_process_send_stix_to_opencti` sees it: an id and
a mapping of attribute names to values (a field is absent when its name
does not occur). -/
structure PreparedObject where
  id : String
  attrs : List (String × String)
deriving DecidableEq

/-- The merge the spec describes for two candidates with the same derived id
(stated for comparison with the code's `unique_by_id`): keep every attribute
of the earlier object and extend with the attributes only the later object
carries — first-writer-wins per field, union across fields. -/
def spec_attr_union (earlier later : PreparedObject) : PreparedObject :=
  ⟨earlier.id,
    earlier.attrs ++
      later.attrs.filter (fun kv => !(earlier.attrs.any (fun kv2 => kv2.1 == kv.1)))⟩

/-! ## Serial-reference discipline and batch ordering -/

/-- A batch is reference-satisfied serially when every relationship occurs
after both of its endpoints: walking the list front to back with the set of
ids already seen, each relationship's `source_ref` and `target_ref` are
among the seen ids. -/
def refs_satisfied_serially : List StixObject → List String → Bool
  | [], _ => true
  | o :: rest, seen =>
    (match o with
      | .relationship _ s t _ => seen.contains s && seen.contains t
      | _ => true)
    && refs_satisfied_serially rest (o.id :: seen)

/-- The rank of an object in the ordering the spec claims for emitted
batches: author and marking objects first, then observables, then
indicators, with relationships last. -/
def spec_rank : StixObject → Nat
  | .author _ _ => 0
  | .marking _ => 0
  | .observable _ _ _ _ => 1
  | .indicator _ _ _ _ => 2
  | .relationship _ _ _ _ => 3

/-- Whether a list of ranks is sorted in non-decreasing order. -/
def ranksSorted : List Nat → Bool
  | [] => true
  | [_] => true
  | a :: b :: rest => a ≤ b && ranksSorted (b :: rest)

/-- The batch ordering the spec claims (stated for comparison with the
code's output): object ranks never decrease along the emitted list. -/
def spec_ordered_batch (l : List StixObject) : Bool :=
  ranksSorted (l.map spec_rank)

/-! ## Scheduler: `_process_reputation_tasks` and `process_message` -/

/-- The result of one reputation fetch: the client returns either the raw
data or an error dictionary carrying the error and a log message. -/
inductive FetchResult where
  | ok (data : RepData)
  | error (message : String)
deriving DecidableEq

/-- Observable events of one cycle: error log lines, work initiation,
bundle dispatch and work completion. -/
inductive Event where
  | logError (message : String)
  | initiateWork (collection : String) (workId : String)
  | sendBundle (workId : String) (objectCount : Nat)
  | completeWork (collection : String) (workId : String)
deriving DecidableEq

/-- The log message `_process_reputation_tasks` emits when STIX generation
or bundle dispatch raises. -/
def reputation_handling_error_message : String :=
  "[ERROR] An unknown error occurred during the reputation handling process."

/-- The per-collection body of `_process_reputation_tasks`: a failed fetch is
logged and the collection skipped; otherwise work is initiated, the STIX
objects are generated and sent (a raise during generation or dispatch is
caught and logged), and — in the `finally` block — the work is completed
whenever a (truthy) work id was obtained. -/
def process_collection (cfg : PPConfig) (collection workId : String)
    (res : FetchResult) (sendRaises : Bool) : List Event :=
  match res with
  | .error message => [.logError message]
  | .ok data =>
    Event.initiateWork collection workId ::
      ((if sendRaises then [Event.logError reputation_handling_error_message]
        else
          let prepared := generate_stix_from_reputation_data cfg data collection
          if prepared.length ≠ 0 then
            [Event.sendBundle workId (unique_by_id StixObject.id prepared []).length]
          else [])
        ++ (if workId ≠ "" then [Event.completeWork collection workId] else []))

/-- The inputs of one cycle: the two fetch results, whether dispatch raises
for each collection, and the work ids the platform hands out. -/
structure CycleInput where
  ip_result : FetchResult
  domain_result : FetchResult
  ip_send_raises : Bool
  domain_send_raises : Bool
  ip_work_id : String
  domain_work_id : String
deriving DecidableEq

/-- `_process_reputation_tasks`: both collections are processed; each
collection's failures are handled inside its own body and never escape. -/
def process_reputation_tasks (cfg : PPConfig) (inp : CycleInput) : List Event :=
  process_collection cfg "IPv4-Addr" inp.ip_work_id inp.ip_result inp.ip_send_raises
    ++ process_collection cfg "Domain-Name" inp.domain_work_id inp.domain_result
      inp.domain_send_raises

/-- `process_message`: read the current state, run the reputation tasks, and
store the cycle's start timestamp as the new `last_run` value.  Returns the
state persisted at the end of the cycle together with the cycle's events. -/
def process_message (cfg : PPConfig) (inp : CycleInput) (now_timestamp : Nat)
    (current_state : Option Nat) : Option Nat × List Event :=
  let events := process_reputation_tasks cfg inp
  let _ := current_state
  (some now_timestamp, events)

/-! ## SpyCloud author and Intel471 indicators mapper -/

/-- `Author` of `spycloud/src/connector/models/opencti.py`: name, description
and identity class (always "organization"). -/
structure Author where
  name : String
  description : String
  identity_class : String := "organization"
deriving DecidableEq

/-- The STIX identity `Author.to_stix2_object` builds. -/
structure StixIdentity where
  id : String
  name : String
  identity_class : String
  description : String
deriving DecidableEq

/-- `Author.to_stix2_object`: the id derives from the name and the identity
class only. -/
def Author.to_stix2_object (a : Author) : StixIdentity :=
  ⟨identity_generate_id a.name a.identity_class, a.name, a.identity_class, a.description⟩

/-- One source item of the Intel471 indicators feed, restricted to the
fields `IndicatorsMapper.map` reads. -/
structure Intel471Item where
  uid : String
  family : String
  malware_family_profile_uid : String
  indicator_type : String
  indicator_data : String
  description : String
  confidence : String
deriving DecidableEq

/-- Modelled from the spec: `STIXPatterningMapper` (`mappers/patterning.py`)
is not among the provided sources; for a supported indicator type it maps
the indicator data deterministically to a STIX pattern, and an unsupported
type has no mapper. -/
def stix_pattern_of (indicatorType indicatorData : String) : Option String :=
  if indicatorType = "url" ∨ indicatorType = "ipv4" ∨ indicatorType = "file" then
    some ("[" ++ indicatorType ++ " = " ++ indicatorData ++ "]")
  else none

/-- The malware id `IndicatorsMapper.map` generates: derived from the
stripped, lowercased family name only. -/
def malware_id_of (item : Intel471Item) : String :=
  generate_id "malware" [("name", item.family.trim.toLower)]

/-- The indicator id `IndicatorsMapper.map` generates: derived from the
STIX pattern only. -/
def indicator_id_of (pattern : String) : String :=
  generate_id "indicator" [("pattern", pattern)]

/-- The pair of ids `IndicatorsMapper.map` generates for one item, when the
item's indicator type has a pattern mapper. -/
def map_item_ids (item : Intel471Item) : Option (String × String) :=
  match stix_pattern_of item.indicator_type item.indicator_data with
  | some pattern => some (malware_id_of item, indicator_id_of pattern)
  | none => none

/-! ## Helper lemmas -/

theorem contains_eq_true_iff {l : List String} {a : String} :
    l.contains a = true ↔ a ∈ l := by
  simp [List.contains, List.elem_iff]

theorem mem_of_mem_unique_by_id {α : Type} (key : α → String) :
    ∀ (l : List α) (seen : List String) (x : α),
      x ∈ unique_by_id key l seen → x ∈ l := by
  intro l
  induction l with
  | nil => intro seen x h; simp [unique_by_id] at h
  | cons y l ih =>
    intro seen x h
    simp only [unique_by_id] at h
    split at h
    · exact List.mem_cons_of_mem y (ih _ x h)
    · rcases List.mem_cons.mp h with h | h
      · exact h ▸ List.mem_cons_self y l
      · exact List.mem_cons_of_mem y (ih _ x h)

theorem key_mem_unique_by_id {α : Type} (key : α → String) :
    ∀ (l : List α) (seen : List String) (k : String),
      k ∈ l.map key →
      k ∈ seen ∨ ∃ x, x ∈ unique_by_id key l seen ∧ key x = k := by
  intro l
  induction l with
  | nil => intro seen k h; simp at h
  | cons y l ih =>
    intro seen k h
    rcases List.mem_cons.mp h with h | h
    · by_cases hc : seen.contains (key y) = true
      · left
        exact h ▸ contains_eq_true_iff.mp hc
      · right
        refine ⟨y, ?_, h.symm⟩
        simp only [unique_by_id]
        rw [if_neg hc]
        exact List.mem_cons_self y _
    · by_cases hc : seen.contains (key y) = true
      · rcases ih seen k h with hk | ⟨x, hx, hxk⟩
        · exact Or.inl hk
        · refine Or.inr ⟨x, ?_, hxk⟩
          simp only [unique_by_id]
          rw [if_pos hc]
          exact hx
      · rcases ih (key y :: seen) k h with hk | ⟨x, hx, hxk⟩
        · rcases List.mem_cons.mp hk with hk | hk
          · right
            refine ⟨y, ?_, hk.symm⟩
            simp only [unique_by_id]
            rw [if_neg hc]
            exact List.mem_cons_self y _
          · exact Or.inl hk
        · right
          refine ⟨x, ?_, hxk⟩
          simp only [unique_by_id]
          rw [if_neg hc]
          exact List.mem_cons_of_mem y hx

theorem unique_by_id_append_dup {α : Type} (key : α → String) :
    ∀ (xs : List α) (b : α) (seen : List String),
      (key b ∈ seen ∨ key b ∈ xs.map key) →
      unique_by_id key (xs ++ [b]) seen = unique_by_id key xs seen := by
  intro xs
  induction xs with
  | nil =>
    intro b seen h
    have hb : key b ∈ seen := by
      rcases h with h | h
      · exact h
      · simp at h
    simp only [List.nil_append, unique_by_id]
    rw [if_pos (contains_eq_true_iff.mpr hb)]
  | cons y xs ih =>
    intro b seen h
    by_cases hc : seen.contains (key y) = true
    · have h' : key b ∈ seen ∨ key b ∈ xs.map key := by
        rcases h with h | h
        · exact Or.inl h
        · rcases List.mem_cons.mp h with h | h
          · exact Or.inl (h ▸ contains_eq_true_iff.mp hc)
          · exact Or.inr h
      simp only [List.cons_append, unique_by_id]
      rw [if_pos hc, if_pos hc]
      exact ih b seen h'
    · have h' : key b ∈ key y :: seen ∨ key b ∈ xs.map key := by
        rcases h with h | h
        · exact Or.inl (List.mem_cons_of_mem _ h)
        · rcases List.mem_cons.mp h with h | h
          · exact Or.inl (h ▸ List.mem_cons_self _ _)
          · exact Or.inr h
      simp only [List.cons_append, unique_by_id]
      rw [if_neg hc, if_neg hc]
      exact congrArg (fun l => y :: l) (ih b (key y :: seen) h')

theorem refs_satisfied_serially_append :
    ∀ (xs ys : List StixObject) (seen : List String),
      refs_satisfied_serially (xs ++ ys) seen =
        (refs_satisfied_serially xs seen &&
          refs_satisfied_serially ys (xs.reverse.map StixObject.id ++ seen)) := by
  intro xs
  induction xs with
  | nil => intro ys seen; simp [refs_satisfied_serially]
  | cons o xs ih =>
    intro ys seen
    simp only [List.cons_append, refs_satisfied_serially]
    have hmain : refs_satisfied_serially (xs ++ ys) (StixObject.id o :: seen) =
        (refs_satisfied_serially xs (StixObject.id o :: seen) &&
          refs_satisfied_serially ys
            (List.map StixObject.id xs.reverse ++ (StixObject.id o :: seen))) :=
      ih ys (StixObject.id o :: seen)
    rw [show List.append xs ys = xs ++ ys from rfl, hmain]
    simp [List.reverse_cons, List.map_append, List.append_assoc, Bool.and_assoc]

theorem refs_entity_objects (cfg : PPConfig) (collection : String)
    (model : ReputationModel) (seen : List String) :
    refs_satisfied_serially (entity_objects cfg collection model) seen = true := by
  simp only [entity_objects]
  split
  · rfl
  · split
    · rfl
    · rename_i obs heq
      unfold make_observable at heq
      split at heq
      · injection heq with h
        subst h
        split
        · simp [refs_satisfied_serially, make_relationship, make_indicator,
            StixObject.id, List.contains_cons]
        · simp [refs_satisfied_serially, StixObject.id]
      · cases heq

theorem refs_flatMap (cfg : PPConfig) (collection : String) :
    ∀ (models : List ReputationModel) (seen : List String),
      refs_satisfied_serially (models.flatMap (entity_objects cfg collection)) seen
        = true := by
  intro models
  induction models with
  | nil => intro seen; rfl
  | cons m ms ih =>
    intro seen
    rw [List.flatMap_cons, refs_satisfied_serially_append,
      refs_entity_objects cfg collection m seen, ih, Bool.and_self]

theorem refs_generate_stix (cfg : PPConfig) (data : RepData) (collection : String) :
    refs_satisfied_serially
      (generate_stix_from_reputation_data cfg data collection) [] = true := by
  unfold generate_stix_from_reputation_data
  simp only [refs_satisfied_serially, make_author, make_marking_definition_tlp_amber_strict,
    Bool.true_and]
  exact refs_flatMap cfg collection _ _

theorem refs_resolved_of_serial :
    ∀ (l : List StixObject) (seen : List String) (i s t rt : String),
      refs_satisfied_serially l seen = true →
      StixObject.relationship i s t rt ∈ l →
      (s ∈ seen ∨ s ∈ l.map StixObject.id) ∧
        (t ∈ seen ∨ t ∈ l.map StixObject.id) := by
  intro l
  induction l with
  | nil => intro seen i s t rt _ hm; simp at hm
  | cons o rest ih =>
    intro seen i s t rt h hm
    simp only [refs_satisfied_serially, Bool.and_eq_true] at h
    rcases List.mem_cons.mp hm with hm | hm
    · subst hm
      simp only [Bool.and_eq_true] at h
      refine ⟨Or.inl (contains_eq_true_iff.mp h.1.1), Or.inl (contains_eq_true_iff.mp h.1.2)⟩
    · have := ih (StixObject.id o :: seen) i s t rt h.2 hm
      constructor
      · rcases this.1 with hs | hs
        · rcases List.mem_cons.mp hs with hs | hs
          · exact Or.inr (hs ▸ List.mem_cons_self _ _)
          · exact Or.inl hs
        · exact Or.inr (List.mem_cons_of_mem _ hs)
      · rcases this.2 with ht | ht
        · rcases List.mem_cons.mp ht with ht | ht
          · exact Or.inr (ht ▸ List.mem_cons_self _ _)
          · exact Or.inl ht
        · exact Or.inr (List.mem_cons_of_mem _ ht)

/-- Whether some object of the list carries the given id. -/
def has_object_with_id (l : List StixObject) (k : String) : Bool :=
  l.any (fun o => o.id == k)

theorem has_object_with_id_of_exists {l : List StixObject} {k : String}
    (h : ∃ x, x ∈ l ∧ StixObject.id x = k) : has_object_with_id l k = true := by
  rcases h with ⟨x, hx, hk⟩
  exact List.any_eq_true.mpr ⟨x, hx, by simp [hk]⟩

theorem capped_score_eq_spec (model : ReputationModel) :
    capped_score model = spec_score (model.score_by_category.map Prod.snd) := by
  simp only [capped_score, spec_score, Nat.min_def]
  split <;> split <;> omega

/-! ## Claim theorems -/

/-- Claim C1, counterexample: in a cycle in which both reputation fetches
fail (the client returns error results, which are logged), `process_message`
still persists the cycle's start timestamp as the new `last_run`, replacing
the previously stored cursor 42 — the stored cursor is not left unchanged. -/
theorem cursor_advance_despite_fetch_failure_cex :
    (process_message ⟨20, true⟩
        ⟨.error "Max retries exceeded", .error "Max retries exceeded", false, false,
          "w1", "w2"⟩ 1700000000 (some 42)).1 = some 1700000000
    ∧ some (1700000000 : Nat) ≠ some 42
    ∧ Event.logError "Max retries exceeded" ∈
        (process_message ⟨20, true⟩
          ⟨.error "Max retries exceeded", .error "Max retries exceeded", false, false,
            "w1", "w2"⟩ 1700000000 (some 42)).2 := by
  refine ⟨rfl, by decide, by decide⟩

/-- Claim C1, amended: the scheduler persists the cycle's start timestamp as
the new `last_run` cursor at the end of every cycle, regardless of whether
any fetch or batch dispatch failed — fetch errors and dispatch exceptions
are logged inside the cycle and never prevent the cursor from advancing. -/
theorem cursor_always_advances :
    ∀ (cfg : PPConfig) (inp : CycleInput) (now_timestamp : Nat)
      (current_state : Option Nat),
      (process_message cfg inp now_timestamp current_state).1 = some now_timestamp :=
  fun _ _ _ _ => rfl

/-- Claim C2: for every entity with a non-empty `score_by_category` mapping,
every score-carrying object (observable or indicator) that
`_generate_stix_from_reputation_data` emits for it carries exactly the
maximum of the per-category scores capped at 100, and that score is always
at most 100 (and is a natural number, hence at least 0). -/
theorem emitted_score_is_capped_max :
    ∀ (cfg : PPConfig) (collection : String) (model : ReputationModel)
      (obj : StixObject) (s : Nat),
      model.score_by_category ≠ [] →
      obj ∈ entity_objects cfg collection model →
      obj.score? = some s →
      s = capped_score model
      ∧ capped_score model = spec_score (model.score_by_category.map Prod.snd)
      ∧ s ≤ 100 := by
  intro cfg collection model obj s _ hmem hscore
  have hcap := capped_score_eq_spec model
  have hle : capped_score model ≤ 100 := by
    rw [hcap]
    exact Nat.min_le_right _ _
  suffices hs : s = capped_score model by exact ⟨hs, hcap, hs ▸ hle⟩
  revert hmem
  simp only [entity_objects]
  split
  · intro h; simp at h
  · split
    · intro h; simp at h
    · rename_i obs heq
      unfold make_observable at heq
      split at heq
      · injection heq with h
        subst h
        split
        · intro hmem
          simp only [List.mem_cons, List.not_mem_nil, or_false] at hmem
          rcases hmem with rfl | rfl | rfl
          · simp [StixObject.score?] at hscore
            omega
          · simp [make_indicator, StixObject.score?] at hscore
            omega
          · simp [make_relationship, StixObject.score?] at hscore
        · intro hmem
          simp only [List.mem_cons, List.not_mem_nil, or_false] at hmem
          rcases hmem with rfl
          simp [StixObject.score?] at hscore
          omega
      · cases heq

/-- Witness for C2: the entity `1.2.3.4` with scores 130 and 90 yields an
observable carrying score 100 = min (max 130 90) 100. -/
theorem emitted_score_is_capped_max_witness :
    (⟨"1.2.3.4", [("spam", 130), ("botnet", 90)]⟩ : ReputationModel).score_by_category ≠ []
    ∧ StixObject.observable "observable--collection=IPv4-Addr;value=1.2.3.4" "1.2.3.4"
        100 ["spam", "botnet"] ∈
        entity_objects ⟨20, true⟩ "IPv4-Addr" ⟨"1.2.3.4", [("spam", 130), ("botnet", 90)]⟩
    ∧ (StixObject.observable "observable--collection=IPv4-Addr;value=1.2.3.4" "1.2.3.4"
        100 ["spam", "botnet"]).score? = some 100
    ∧ (100 = capped_score ⟨"1.2.3.4", [("spam", 130), ("botnet", 90)]⟩
        ∧ capped_score ⟨"1.2.3.4", [("spam", 130), ("botnet", 90)]⟩
            = spec_score ((⟨"1.2.3.4", [("spam", 130), ("botnet", 90)]⟩ :
                ReputationModel).score_by_category.map Prod.snd)
        ∧ 100 ≤ 100) :=
  ⟨by decide, by decide, by decide,
    emitted_score_is_capped_max ⟨20, true⟩ "IPv4-Addr"
      ⟨"1.2.3.4", [("spam", 130), ("botnet", 90)]⟩
      (StixObject.observable "observable--collection=IPv4-Addr;value=1.2.3.4" "1.2.3.4"
        100 ["spam", "botnet"]) 100
      (by decide) (by decide) (by decide)⟩

/-- Claim C3: an entity whose capped maximum score is strictly below the
configured minimum score contributes no object at all (no observable,
indicator or relationship), while the author identity and the marking
definition are the first two objects of every cycle's output, and the whole
output is exactly those two anchors followed by the per-entity
contributions. -/
theorem min_score_filter_spares_anchors :
    ∀ (cfg : PPConfig) (collection : String) (data : RepData) (model : ReputationModel),
      (cfg.extra_min_score > capped_score model →
        entity_objects cfg collection model = [])
      ∧ make_author ∈ generate_stix_from_reputation_data cfg data collection
      ∧ make_marking_definition_tlp_amber_strict ∈
          generate_stix_from_reputation_data cfg data collection
      ∧ generate_stix_from_reputation_data cfg data collection
          = make_author :: make_marking_definition_tlp_amber_strict ::
              (generate_reputation_model data).flatMap (entity_objects cfg collection) := by
  intro cfg collection data model
  refine ⟨?_, ?_, ?_, rfl⟩
  · intro h
    simp only [entity_objects]
    rw [if_pos h]
  · exact List.mem_cons_self _ _
  · exact List.mem_cons_of_mem _ (List.mem_cons_self _ _)

/-- Witness for C3, the spec's end-to-end scenario 3: with the minimum score
configured to 20, a record scoring 15 contributes nothing while the author
is still present in the output. -/
theorem min_score_filter_spares_anchors_witness :
    (⟨20, true⟩ : PPConfig).extra_min_score >
        capped_score ⟨"1.2.3.4", [("spam", 15)]⟩
    ∧ entity_objects ⟨20, true⟩ "IPv4-Addr" ⟨"1.2.3.4", [("spam", 15)]⟩ = []
    ∧ make_author ∈ generate_stix_from_reputation_data ⟨20, true⟩
        [("1.2.3.4", [("spam", 15)])] "IPv4-Addr" :=
  ⟨by decide,
    (min_score_filter_spares_anchors ⟨20, true⟩ "IPv4-Addr" [("1.2.3.4", [("spam", 15)])]
      ⟨"1.2.3.4", [("spam", 15)]⟩).1 (by decide),
    (min_score_filter_spares_anchors ⟨20, true⟩ "IPv4-Addr" [("1.2.3.4", [("spam", 15)])]
      ⟨"1.2.3.4", [("spam", 15)]⟩).2.1⟩

/-- Claim C4: in every emitted bundle (the deduplicated object list built by
`_process_send_stix_to_opencti` from the generator's output), every
relationship's `source_ref` and `target_ref` identify objects present in the
same bundle. -/
theorem relationship_refs_resolve_in_bundle :
    ∀ (cfg : PPConfig) (data : RepData) (collection : String) (i s t rt : String),
      StixObject.relationship i s t rt ∈
          unique_by_id StixObject.id
            (generate_stix_from_reputation_data cfg data collection) [] →
      has_object_with_id (unique_by_id StixObject.id
          (generate_stix_from_reputation_data cfg data collection) []) s = true
      ∧ has_object_with_id (unique_by_id StixObject.id
          (generate_stix_from_reputation_data cfg data collection) []) t = true := by
  intro cfg data collection i s t rt hmem
  have hmem' : StixObject.relationship i s t rt ∈
      generate_stix_from_reputation_data cfg data collection :=
    mem_of_mem_unique_by_id StixObject.id _ [] _ hmem
  have hrefs := refs_resolved_of_serial
    (generate_stix_from_reputation_data cfg data collection) [] i s t rt
    (refs_generate_stix cfg data collection) hmem'
  constructor
  · rcases hrefs.1 with h | h
    · simp at h
    · rcases key_mem_unique_by_id StixObject.id
        (generate_stix_from_reputation_data cfg data collection) [] s h with h' | ⟨x, hx, hxk⟩
      · simp at h'
      · exact has_object_with_id_of_exists ⟨x, hx, hxk⟩
  · rcases hrefs.2 with h | h
    · simp at h
    · rcases key_mem_unique_by_id StixObject.id
        (generate_stix_from_reputation_data cfg data collection) [] t h with h' | ⟨x, hx, hxk⟩
      · simp at h'
      · exact has_object_with_id_of_exists ⟨x, hx, hxk⟩

/-- Witness for C4: the `based-on` relationship emitted for `1.2.3.4` sits in
the deduplicated bundle together with objects bearing its two endpoint ids. -/
theorem relationship_refs_resolve_in_bundle_witness :
    StixObject.relationship
        "relationship--relationship_type=based-on;source_ref=indicator--pattern=[IPv4-Addr:value = 1.2.3.4];target_ref=observable--collection=IPv4-Addr;value=1.2.3.4"
        "indicator--pattern=[IPv4-Addr:value = 1.2.3.4]"
        "observable--collection=IPv4-Addr;value=1.2.3.4" "based-on" ∈
        unique_by_id StixObject.id
          (generate_stix_from_reputation_data ⟨20, true⟩ [("1.2.3.4", [("spam", 30)])]
            "IPv4-Addr") []
    ∧ has_object_with_id (unique_by_id StixObject.id
        (generate_stix_from_reputation_data ⟨20, true⟩ [("1.2.3.4", [("spam", 30)])]
          "IPv4-Addr") []) "indicator--pattern=[IPv4-Addr:value = 1.2.3.4]" = true
    ∧ has_object_with_id (unique_by_id StixObject.id
        (generate_stix_from_reputation_data ⟨20, true⟩ [("1.2.3.4", [("spam", 30)])]
          "IPv4-Addr") []) "observable--collection=IPv4-Addr;value=1.2.3.4" = true :=
  ⟨by decide,
    (relationship_refs_resolve_in_bundle ⟨20, true⟩ [("1.2.3.4", [("spam", 30)])] "IPv4-Addr"
      "relationship--relationship_type=based-on;source_ref=indicator--pattern=[IPv4-Addr:value = 1.2.3.4];target_ref=observable--collection=IPv4-Addr;value=1.2.3.4"
      "indicator--pattern=[IPv4-Addr:value = 1.2.3.4]"
      "observable--collection=IPv4-Addr;value=1.2.3.4" "based-on" (by decide)).1,
    (relationship_refs_resolve_in_bundle ⟨20, true⟩ [("1.2.3.4", [("spam", 30)])] "IPv4-Addr"
      "relationship--relationship_type=based-on;source_ref=indicator--pattern=[IPv4-Addr:value = 1.2.3.4];target_ref=observable--collection=IPv4-Addr;value=1.2.3.4"
      "indicator--pattern=[IPv4-Addr:value = 1.2.3.4]"
      "observable--collection=IPv4-Addr;value=1.2.3.4" "based-on" (by decide)).2⟩

/-- Claim C5, counterexample: when two prepared objects share an id, the
bundle keeps the first object unchanged and drops the second wholesale — the
result is not the field-wise union of their attributes (the field `name`
present only in the later object is lost, not filled in). -/
theorem duplicate_merge_not_attr_union_cex :
    unique_by_id PreparedObject.id
        [⟨"indicator--x", [("pattern", "p")]⟩, ⟨"indicator--x", [("name", "n")]⟩] []
      = [⟨"indicator--x", [("pattern", "p")]⟩]
    ∧ unique_by_id PreparedObject.id
        [⟨"indicator--x", [("pattern", "p")]⟩, ⟨"indicator--x", [("name", "n")]⟩] []
      ≠ [spec_attr_union ⟨"indicator--x", [("pattern", "p")]⟩
          ⟨"indicator--x", [("name", "n")]⟩] := by
  refine ⟨by decide, by decide⟩

/-- Claim C5, amended: when a prepared object's id already occurs earlier in
the batch, the later object is discarded entirely — the bundle is exactly
what it would have been without it; no attribute of the later object is
merged in. -/
theorem later_duplicate_discarded :
    ∀ (xs : List PreparedObject) (b : PreparedObject),
      b.id ∈ xs.map PreparedObject.id →
      unique_by_id PreparedObject.id (xs ++ [b]) []
        = unique_by_id PreparedObject.id xs [] :=
  fun xs b h => unique_by_id_append_dup PreparedObject.id xs b [] (Or.inr h)

/-- Witness for C5: appending a second object with the id `id-1` leaves the
bundle of the first object unchanged. -/
theorem later_duplicate_discarded_witness :
    (⟨"id-1", [("name", "n")]⟩ : PreparedObject).id ∈
        [(⟨"id-1", [("pattern", "p")]⟩ : PreparedObject)].map PreparedObject.id
    ∧ unique_by_id PreparedObject.id
        ([(⟨"id-1", [("pattern", "p")]⟩ : PreparedObject)] ++ [⟨"id-1", [("name", "n")]⟩]) []
      = unique_by_id PreparedObject.id [(⟨"id-1", [("pattern", "p")]⟩ : PreparedObject)] [] :=
  ⟨by decide, later_duplicate_discarded _ _ (by decide)⟩

/-- Claim C6, counterexample: adding two distinct prepared objects with the
same id in the two possible orders yields different final object sets (each
order keeps its own first object), so the final content is not independent
of the order of addition. -/
theorem merge_order_dependent_cex :
    unique_by_id PreparedObject.id
        [⟨"id-1", [("f", "v1")]⟩, ⟨"id-1", [("f", "v2")]⟩] []
      ≠ unique_by_id PreparedObject.id
        [⟨"id-1", [("f", "v2")]⟩, ⟨"id-1", [("f", "v1")]⟩] [] := by decide

/-- Claim C6, amended: for two prepared objects with the same id, the set of
ids of the final bundle is independent of the order of addition, and the
full bundle is order-independent exactly when the two objects are equal
(the kept content is always the first object added). -/
theorem merge_order_independent_ids :
    ∀ (a b : PreparedObject), a.id = b.id →
      ((unique_by_id PreparedObject.id [a, b] []).map PreparedObject.id
        = (unique_by_id PreparedObject.id [b, a] []).map PreparedObject.id)
      ∧ (a = b → unique_by_id PreparedObject.id [a, b] []
          = unique_by_id PreparedObject.id [b, a] []) := by
  intro a b h
  constructor
  · simp [unique_by_id, h]
  · intro he; subst he; rfl

/-- Witness for C6: two same-id objects added in either order leave the same
id list in the bundle. -/
theorem merge_order_independent_ids_witness :
    (⟨"id-1", [("f", "v1")]⟩ : PreparedObject).id
        = (⟨"id-1", [("f", "v2")]⟩ : PreparedObject).id
    ∧ (unique_by_id PreparedObject.id
          [(⟨"id-1", [("f", "v1")]⟩ : PreparedObject), ⟨"id-1", [("f", "v2")]⟩] []).map
            PreparedObject.id
      = (unique_by_id PreparedObject.id
          [(⟨"id-1", [("f", "v2")]⟩ : PreparedObject), ⟨"id-1", [("f", "v1")]⟩] []).map
            PreparedObject.id :=
  ⟨by decide, (merge_order_independent_ids _ _ (by decide)).1⟩

/-- Claim C7: `_generate_reputation_model` skips an entity whose data fails
validation and keeps yielding the models of all other entities — removing
one bad record from the middle of the batch changes nothing else. -/
theorem invalid_record_skipped :
    ∀ (xs ys : RepData) (v : String) (s : List (String × Int)),
      validate_reputation v s = none →
      generate_reputation_model (xs ++ (v, s) :: ys)
        = generate_reputation_model xs ++ generate_reputation_model ys := by
  intro xs ys v s h
  simp [generate_reputation_model, List.filterMap_append, List.filterMap_cons, h]

/-- Witness for C7: a record with a negative score fails validation and is
skipped while the surrounding records are still processed. -/
theorem invalid_record_skipped_witness :
    validate_reputation "bad" [("spam", -5)] = none
    ∧ generate_reputation_model
        ([("1.2.3.4", [("spam", 30)])] ++ ("bad", [("spam", -5)]) ::
          [("5.6.7.8", [("botnet", 40)])])
      = generate_reputation_model [("1.2.3.4", [("spam", 30)])]
          ++ generate_reputation_model [("5.6.7.8", [("botnet", 40)])] :=
  ⟨by decide, invalid_record_skipped _ _ _ _ (by decide)⟩

/-- Claim C8: derived ids are functions of semantic content only — two
Intel471 items agreeing on the (normalized) malware family name, the
indicator type and the indicator data receive identical malware and
indicator ids whatever their source-assigned `uid`s, descriptions or
confidences are, and two SpyCloud authors with the same name and identity
class receive the same identity id whatever their descriptions are. -/
theorem derived_ids_semantic_only :
    ∀ (i₁ i₂ : Intel471Item) (a₁ a₂ : Author),
      i₁.family.trim.toLower = i₂.family.trim.toLower →
      i₁.indicator_type = i₂.indicator_type →
      i₁.indicator_data = i₂.indicator_data →
      a₁.name = a₂.name →
      a₁.identity_class = a₂.identity_class →
      map_item_ids i₁ = map_item_ids i₂
      ∧ (a₁.to_stix2_object).id = (a₂.to_stix2_object).id := by
  intro i₁ i₂ a₁ a₂ hf ht hd hn hc
  constructor
  · simp [map_item_ids, stix_pattern_of, malware_id_of, indicator_id_of, hf, ht, hd]
  · simp [Author.to_stix2_object, identity_generate_id, hn, hc]

/-- Witness for C8: two items differing only in row id, profile uid,
description and confidence receive the same ids; two authors differing only
in description receive the same identity id. -/
theorem derived_ids_semantic_only_witness :
    (⟨"uid-1", "Emotet", "mf-1", "url", "http://x/a", "first", "high"⟩ :
        Intel471Item).family.trim.toLower
      = (⟨"uid-2", "Emotet", "mf-2", "url", "http://x/a", "second", "low"⟩ :
        Intel471Item).family.trim.toLower
    ∧ map_item_ids ⟨"uid-1", "Emotet", "mf-1", "url", "http://x/a", "first", "high"⟩
      = map_item_ids ⟨"uid-2", "Emotet", "mf-2", "url", "http://x/a", "second", "low"⟩
    ∧ (Author.to_stix2_object ⟨"SpyCloud", "first description", "organization"⟩).id
      = (Author.to_stix2_object ⟨"SpyCloud", "second description", "organization"⟩).id :=
  ⟨rfl,
    (derived_ids_semantic_only ⟨"uid-1", "Emotet", "mf-1", "url", "http://x/a", "first", "high"⟩
      ⟨"uid-2", "Emotet", "mf-2", "url", "http://x/a", "second", "low"⟩
      ⟨"SpyCloud", "first description", "organization"⟩
      ⟨"SpyCloud", "second description", "organization"⟩ rfl rfl rfl rfl rfl).1,
    (derived_ids_semantic_only ⟨"uid-1", "Emotet", "mf-1", "url", "http://x/a", "first", "high"⟩
      ⟨"uid-2", "Emotet", "mf-2", "url", "http://x/a", "second", "low"⟩
      ⟨"SpyCloud", "first description", "organization"⟩
      ⟨"SpyCloud", "second description", "organization"⟩ rfl rfl rfl rfl rfl).2⟩

/-- Claim C9, counterexample: with two entities above threshold and indicator
creation enabled, the emitted list interleaves each entity's observable,
indicator and relationship (ranks 0,0,1,2,3,1,2,3), so the claimed global
order — all observables, then all indicators, then all relationships — does
not hold. -/
theorem batch_ranks_not_sorted_cex :
    spec_ordered_batch (generate_stix_from_reputation_data ⟨20, true⟩
      [("1.2.3.4", [("spam", 30)]), ("5.6.7.8", [("botnet", 40)])] "IPv4-Addr") = false := by
  decide

/-- Claim C9, amended: the author and the marking definition are the first two
objects of every emitted list, and thereafter each entity contributes its
observable, then its indicator, then the relationship between them, so every
relationship appears after both of its endpoints (references are satisfied
under serial processing) even though relationships are not globally last. -/
theorem anchors_first_refs_serial :
    ∀ (cfg : PPConfig) (data : RepData) (collection : String),
      ∃ rest, generate_stix_from_reputation_data cfg data collection
          = make_author :: make_marking_definition_tlp_amber_strict :: rest
      ∧ refs_satisfied_serially
          (generate_stix_from_reputation_data cfg data collection) [] = true :=
  fun cfg data collection => ⟨_, rfl, refs_generate_stix cfg data collection⟩

/-- Claim C10: once a (truthy) work id has been initiated for a collection,
the work is completed even when STIX generation or bundle dispatch raises
(the completion sits in a `finally` block), and such an exception is logged
inside the per-collection handler rather than propagated out of the cycle. -/
theorem work_completed_despite_errors :
    ∀ (cfg : PPConfig) (collection workId : String) (res : FetchResult)
      (sendRaises : Bool),
      workId ≠ "" →
      (Event.initiateWork collection workId ∈
          process_collection cfg collection workId res sendRaises →
        Event.completeWork collection workId ∈
          process_collection cfg collection workId res sendRaises)
      ∧ (∀ data, res = FetchResult.ok data → sendRaises = true →
          Event.logError reputation_handling_error_message ∈
            process_collection cfg collection workId res sendRaises) := by
  intro cfg collection workId res sendRaises hw
  cases res with
  | error m =>
    constructor
    · intro h
      simp [process_collection] at h
    · intro data h
      exact absurd h (by simp)
  | ok data =>
    constructor
    · intro _
      simp only [process_collection]
      refine List.mem_cons_of_mem _ (List.mem_append_right _ ?_)
      rw [if_pos hw]
      exact List.mem_singleton.mpr rfl
    · intro d hd hs
      subst hs
      simp only [process_collection]
      exact List.mem_cons_of_mem _
        (List.mem_append_left _ (List.mem_singleton.mpr rfl))

/-- Witness for C10: with a successful fetch and a raising dispatch, the work
`work-1` is still completed and the error is logged. -/
theorem work_completed_despite_errors_witness :
    ("work-1" : String) ≠ ""
    ∧ Event.completeWork "IPv4-Addr" "work-1" ∈
        process_collection ⟨20, true⟩ "IPv4-Addr" "work-1"
          (FetchResult.ok [("1.2.3.4", [("spam", 30)])]) true
    ∧ Event.logError reputation_handling_error_message ∈
        process_collection ⟨20, true⟩ "IPv4-Addr" "work-1"
          (FetchResult.ok [("1.2.3.4", [("spam", 30)])]) true :=
  ⟨by decide,
    (work_completed_despite_errors ⟨20, true⟩ "IPv4-Addr" "work-1"
      (FetchResult.ok [("1.2.3.4", [("spam", 30)])]) true (by decide)).1 (by decide),
    (work_completed_despite_errors ⟨20, true⟩ "IPv4-Addr" "work-1"
      (FetchResult.ok [("1.2.3.4", [("spam", 30)])]) true (by decide)).2
      [("1.2.3.4", [("spam", 30)])] rfl rfl⟩

end Connectors
